import Mathlib

/-!
Verification of `src/butil/memory/scope_guard.h` from the brpc repository.

The header defines a move-only RAII scope guard:

* `butil::ScopeGuard<Callback>` stores `_callback` and a `_dismiss` flag;
* the destructor runs `_callback()` iff `_dismiss` is false;
* `dismiss()` sets `_dismiss = true`;
* the move constructor copies the source's `_callback` and `_dismiss`
  and then calls `other.dismiss()`;
* default construction, copy construction, copy assignment and move
  assignment are `= delete`d; the only remaining constructors are the
  move constructor and a private `explicit ScopeGuard(Callback&&)`
  reachable only through the `MakeScopeGuard` friend factory;
* `BRPC_SCOPE_EXIT` expands to an anonymous guard built from a
  by-reference-capturing `noexcept` lambda.

We embed the guard state and each member function as a Lean definition,
and embed the host-language scope discipline (locals destroyed at scope
exit in reverse declaration order, on both the normal path and the
unwind path, before an exception leaves the scope) as a small-step
interpreter producing a trace of observable events.  Callback payloads
are values of an arbitrary type `α`; "invoking" a callback emits it on
the trace, so invocation counts and ordering are directly observable.
-/

namespace butil

variable {α : Type}

/-- Model of a C++ callable type as seen by the template machinery of the
header: its arity, whether its return type is `void`, and whether it is
declared `noexcept`. -/
structure CppCallable where
  arity : Nat
  retIsVoid : Bool
  isNoexcept : Bool
deriving DecidableEq

/-- `returns_void_t<T>` (scope_guard.h lines 27-30): whether a
no-argument invocation of the callable is well-formed and returns
`void`.  `decltype(std::declval<T&&>()())` requires the callable to be
invocable with zero arguments; `std::is_same<void, ...>` requires the
result type to be `void`. -/
def returns_void_t (c : CppCallable) : Bool :=
  c.arity == 0 && c.retIsVoid

/-- The `enable_if` constraint on the `ScopeGuard` template
(scope_guard.h lines 32-35): the class, hence the factory, can only be
instantiated for callables satisfying `returns_void_t`. -/
def scopeGuardInstantiable (c : CppCallable) : Bool :=
  returns_void_t c

/-- The state of a `ScopeGuard<Callback>` object (scope_guard.h lines
74-76): the owned callback and the `_dismiss` flag. -/
structure ScopeGuard (α : Type) where
  _callback : α
  _dismiss : Bool
deriving DecidableEq

/-- `ScopeGuard::dismiss()` (lines 57-59): sets `_dismiss = true`. -/
def ScopeGuard.dismiss (g : ScopeGuard α) : ScopeGuard α :=
  { g with _dismiss := true }

/-- The move constructor `ScopeGuard(ScopeGuard&& other)` (lines 45-49):
the new guard copies `other._callback` and `other._dismiss`, and then
`other.dismiss()` is called.  Returns the pair
(newly constructed guard, moved-from source after `dismiss`). -/
def ScopeGuard.moveConstruct (other : ScopeGuard α) : ScopeGuard α × ScopeGuard α :=
  ({ _callback := other._callback, _dismiss := other._dismiss }, other.dismiss)

/-- The destructor `~ScopeGuard()` (lines 51-55): `if (!_dismiss)
_callback();`.  Returns the list of callbacks invoked (empty or a
singleton). -/
def ScopeGuard.destruct (g : ScopeGuard α) : List α :=
  if g._dismiss then [] else [g._callback]

/-- The private constructor `explicit ScopeGuard(Callback&&)` (lines
70-72) as called by `MakeScopeGuard` (lines 83-85): stores the callback
with `_dismiss = false`. -/
def MakeScopeGuard (callback : α) : ScopeGuard α :=
  { _callback := callback, _dismiss := false }

/-- `internal::operator+(ScopeExitHelper, Callback&&)` (lines 91-96), the
entry point used by the `BRPC_SCOPE_EXIT` expansion: forwards to
`MakeScopeGuard`. -/
def scopeExitPlus (callback : α) : ScopeGuard α :=
  MakeScopeGuard callback

/-! ### The member table of `ScopeGuard`

Lines 61-64 of the header delete four special member functions; the move
constructor (lines 45-49) and the private factory constructor (lines
70-72, friend `MakeScopeGuard`) are the only constructors left. -/

/-- The special member functions of `ScopeGuard` relevant to object
creation and reassignment. -/
inductive GuardMember where
  | defaultCtor
  | copyCtor
  | copyAssign
  | moveAssign
  | moveCtor
  | factoryCtor
deriving DecidableEq

/-- Which members the header declares `= delete` (lines 61-64): deleting
a member is a compile-time (static) rejection of any use of it. -/
def memberDeleted : GuardMember → Bool
  | GuardMember.defaultCtor => true
  | GuardMember.copyCtor => true
  | GuardMember.copyAssign => true
  | GuardMember.moveAssign => true
  | GuardMember.moveCtor => false
  | GuardMember.factoryCtor => false

/-! ### Scope semantics

The host language destroys block-scoped locals when control leaves the
block — by normal fall-through or by stack unwinding — in reverse order
of their construction, and on the unwind path the destructors run before
the exception propagates past the scope.  We embed one lexical scope as
a statement list interpreted against a list of live guards (tagged with
their declaration index) and a fresh-index counter, producing a trace. -/

/-- Statements of one lexical scope.  `mkGuard cb` declares a guard via
`MakeScopeGuard`; `scopeExit cb` declares one via the `BRPC_SCOPE_EXIT`
sugar (which routes through `internal::operator+`); `dismissG i` calls
`dismiss()` on the guard declared with index `i`; `moveG i`
move-constructs a fresh guard from guard `i`; `other e` is any other
statement, observable as the event `e`; `throwErr` exits the scope by
unwinding. -/
inductive Stmt (α : Type) where
  | mkGuard (cb : α)
  | scopeExit (cb : α)
  | dismissG (i : Nat)
  | moveG (i : Nat)
  | other (e : α)
  | throwErr

/-- Observable events: an ordinary statement executing, the destructor of
the guard with declaration index `idx` invoking callback `cb`, and the
error of an unwind propagating out of the scope. -/
inductive Event (α : Type) where
  | stmt (e : α)
  | invoke (idx : Nat) (cb : α)
  | unwind
deriving DecidableEq

/-- The events emitted by destroying guard number `i`: its destructor's
invocations (`ScopeGuard.destruct`) tagged with `i`. -/
def destructEvents (i : Nat) (g : ScopeGuard α) : List (Event α) :=
  (g.destruct).map (Event.invoke i)

/-- Destroy all live guards in reverse order of declaration (the list
holds them in declaration order): the last-declared guard's destructor
runs first. -/
def destroyAll : List (Nat × ScopeGuard α) → List (Event α)
  | [] => []
  | p :: rest => destroyAll rest ++ destructEvents p.1 p.2

/-- Look up the live guard with declaration index `i`. -/
def lookupGuard (i : Nat) : List (Nat × ScopeGuard α) → Option (ScopeGuard α)
  | [] => none
  | p :: rest => if p.1 = i then some p.2 else lookupGuard i rest

/-- Replace the state of the guard with declaration index `i`. -/
def updateGuard (i : Nat) (g : ScopeGuard α) (gs : List (Nat × ScopeGuard α)) :
    List (Nat × ScopeGuard α) :=
  gs.map (fun p => if p.1 = i then (i, g) else p)

/-- Run the statements of one scope given the live guards (in
declaration order) and the next fresh declaration index.  Reaching the
end of the list is normal fall-through: all live guards are destroyed.
`throwErr` destroys all live guards and then lets the error propagate
(`Event.unwind`), abandoning the remaining statements. -/
def runStmts : List (Stmt α) → List (Nat × ScopeGuard α) → Nat → List (Event α)
  | [], gs, _ => destroyAll gs
  | Stmt.mkGuard cb :: rest, gs, n =>
      runStmts rest (gs ++ [(n, MakeScopeGuard cb)]) (n + 1)
  | Stmt.scopeExit cb :: rest, gs, n =>
      runStmts rest (gs ++ [(n, scopeExitPlus cb)]) (n + 1)
  | Stmt.dismissG i :: rest, gs, n =>
      match lookupGuard i gs with
      | some g => runStmts rest (updateGuard i g.dismiss gs) n
      | none => runStmts rest gs n
  | Stmt.moveG i :: rest, gs, n =>
      match lookupGuard i gs with
      | some g =>
          runStmts rest
            (updateGuard i (ScopeGuard.moveConstruct g).2 gs
              ++ [(n, (ScopeGuard.moveConstruct g).1)]) (n + 1)
      | none => runStmts rest gs n
  | Stmt.other e :: rest, gs, n => Event.stmt e :: runStmts rest gs n
  | Stmt.throwErr :: _, gs, _ => destroyAll gs ++ [Event.unwind]

/-- Run one scope from an empty environment. -/
def runScope (stmts : List (Stmt α)) : List (Event α) :=
  runStmts stmts [] 0

/-- Whether an event is a destructor invoking a callback. -/
def isInvoke : Event α → Bool
  | Event.invoke _ _ => true
  | _ => false

/-- The destructor-invocation events of a trace, in order. -/
def invokeEvents (tr : List (Event α)) : List (Event α) :=
  tr.filter isInvoke

/-! ### The `BRPC_SCOPE_EXIT` sugar -/

/-- Modelled from the spec: `BRPC_ANONYMOUS_VARIABLE(prefix)` expands to
`BAIDU_CONCAT(prefix, __COUNTER__)`; `BAIDU_CONCAT` lives in
`butil/macros.h`, which is not part of this source tree.  Per the spec it
pastes the fixed prefix token and the current counter value into one
identifier, so with a fixed prefix the generated name is determined by,
and distinguishes, the counter value; we model the pasted identifier as
the pair (prefix, counter). -/
def BRPC_ANONYMOUS_VARIABLE (pfx : String) (counter : Nat) : String × Nat :=
  (pfx, counter)

/-- Modelled from the spec: each expansion of the preprocessor counter
yields its current value and increments it (a monotonically increasing
per-compilation counter).  Returns (value produced, next counter
state). -/
def counterStep (c : Nat) : Nat × Nat :=
  (c, c + 1)

/-- The lambda generated by the `BRPC_SCOPE_EXIT` expansion (lines
110-112): `[&]() noexcept { ... }` — zero arguments, `void` body,
declared `noexcept`. -/
def scopeExitLambda : CppCallable :=
  { arity := 0, retIsVoid := true, isNoexcept := true }

/-- Capture modes of a lambda. -/
inductive CaptureMode where
  | byRef
  | byValue
deriving DecidableEq

/-- The capture mode of the `BRPC_SCOPE_EXIT` lambda: `[&]`, by
reference. -/
def scopeExitCaptureMode : CaptureMode :=
  CaptureMode.byRef

/-- Whether invoking a callable can propagate an error to its caller: a
`noexcept` callable cannot (the host language terminates rather than
propagating). -/
def mayPropagateError (c : CppCallable) : Bool :=
  !c.isNoexcept

/-! ### Operations applicable to an existing guard (for irreversibility) -/

/-- The mutating operations the API offers on an existing guard:
`dismiss()` and being the source of a move construction. -/
inductive GuardOp where
  | dismissOp
  | moveFromOp
deriving DecidableEq

/-- Apply one operation to a guard, keeping the (possibly moved-from)
original object's state. -/
def applyOp : GuardOp → ScopeGuard α → ScopeGuard α
  | GuardOp.dismissOp, g => g.dismiss
  | GuardOp.moveFromOp, g => (ScopeGuard.moveConstruct g).2

/-- Apply a sequence of operations to a guard, left to right. -/
def applyOps (ops : List GuardOp) (g : ScopeGuard α) : ScopeGuard α :=
  ops.foldl (fun g op => applyOp op g) g

/-! ### Helper lemmas -/

theorem runStmts_others_append (es : List α) (rest : List (Stmt α))
    (gs : List (Nat × ScopeGuard α)) (n : Nat) :
    runStmts (es.map Stmt.other ++ rest) gs n
      = es.map Event.stmt ++ runStmts rest gs n := by
  induction es with
  | nil => simp
  | cons e es ih => simp [runStmts, ih]

theorem runStmts_others_end (es : List α) (gs : List (Nat × ScopeGuard α)) (n : Nat) :
    runStmts (es.map Stmt.other) gs n = es.map Event.stmt ++ destroyAll gs := by
  simpa [runStmts] using runStmts_others_append es [] gs n

theorem invokeEvents_append (tr₁ tr₂ : List (Event α)) :
    invokeEvents (tr₁ ++ tr₂) = invokeEvents tr₁ ++ invokeEvents tr₂ := by
  simp [invokeEvents, List.filter_append]

theorem invokeEvents_map_stmt (es : List α) :
    invokeEvents (es.map Event.stmt) = [] := by
  induction es with
  | nil => rfl
  | cons e es ih => simp [invokeEvents, isInvoke]

theorem dismiss_iterate (g : ScopeGuard α) (m : Nat) :
    ScopeGuard.dismiss^[m] g.dismiss = g.dismiss := by
  induction m with
  | zero => rfl
  | succ m ih =>
      rw [Function.iterate_succ_apply]
      have h : (g.dismiss).dismiss = g.dismiss := rfl
      rw [h, ih]

/-! ### Claims -/

/-- C1: for every action `f`, a scope consisting of any other statements
`pre`, the construction of a guard over `f` via the factory, and any
other statements `post`, with the guard never dismissed and never moved,
produces the trace of all the other statements followed by exactly one
invocation of `f`, triggered by the guard's end of life; the only
destructor invocation in the whole scope is that single invocation of
`f`. -/
theorem scope_guard_exactly_once_normal_exit (f : α) (pre post : List α) :
    runScope (pre.map Stmt.other ++ Stmt.mkGuard f :: post.map Stmt.other)
      = (pre.map Event.stmt ++ post.map Event.stmt) ++ [Event.invoke 0 f]
    ∧ invokeEvents
        (runScope (pre.map Stmt.other ++ Stmt.mkGuard f :: post.map Stmt.other))
      = [Event.invoke 0 f] := by
  have h : runScope (pre.map Stmt.other ++ Stmt.mkGuard f :: post.map Stmt.other)
      = (pre.map Event.stmt ++ post.map Event.stmt) ++ [Event.invoke 0 f] := by
    unfold runScope
    rw [runStmts_others_append]
    show pre.map Event.stmt
        ++ runStmts (post.map Stmt.other) [(0, MakeScopeGuard f)] 1 = _
    rw [runStmts_others_end]
    simp [destroyAll, destructEvents, ScopeGuard.destruct, MakeScopeGuard]
  refine ⟨h, ?_⟩
  rw [h, invokeEvents_append, invokeEvents_append, invokeEvents_map_stmt,
    invokeEvents_map_stmt]
  rfl

/-- C2: for every action `f`, a scope that constructs a guard over `f`,
never dismisses it, and is then exited by an error/unwind path
(`throwErr`, abandoning any remaining statements `dead`), still invokes
`f` exactly once, and that invocation happens before the error
propagates out of the scope (the `unwind` event). -/
theorem scope_guard_exactly_once_unwind (f : α) (pre post : List α)
    (dead : List (Stmt α)) :
    runScope (pre.map Stmt.other
        ++ Stmt.mkGuard f :: (post.map Stmt.other ++ Stmt.throwErr :: dead))
      = (pre.map Event.stmt ++ post.map Event.stmt)
        ++ [Event.invoke 0 f, Event.unwind]
    ∧ invokeEvents
        (runScope (pre.map Stmt.other
          ++ Stmt.mkGuard f :: (post.map Stmt.other ++ Stmt.throwErr :: dead)))
      = [Event.invoke 0 f] := by
  have h : runScope (pre.map Stmt.other
        ++ Stmt.mkGuard f :: (post.map Stmt.other ++ Stmt.throwErr :: dead))
      = (pre.map Event.stmt ++ post.map Event.stmt)
        ++ [Event.invoke 0 f, Event.unwind] := by
    unfold runScope
    rw [runStmts_others_append]
    show pre.map Event.stmt
        ++ runStmts (post.map Stmt.other ++ Stmt.throwErr :: dead)
            [(0, MakeScopeGuard f)] 1 = _
    rw [runStmts_others_append]
    simp [runStmts, destroyAll, destructEvents, ScopeGuard.destruct, MakeScopeGuard]
  refine ⟨h, ?_⟩
  rw [h, invokeEvents_append, invokeEvents_append, invokeEvents_map_stmt,
    invokeEvents_map_stmt]
  rfl

/-- C3: for every action `f`, declaring guard `A` over `f` (index 0),
move-constructing guard `B` from it (index 1), and letting both reach
end of life at scope exit invokes `f` exactly once in total, the
invocation being triggered by `B`'s destructor (index 1); no destructor
invocation in the scope is triggered by `A` (index 0). -/
theorem scope_guard_move_transfers_obligation (f : α) :
    runScope [Stmt.mkGuard f, Stmt.moveG 0] = [Event.invoke 1 f]
    ∧ ∀ cb : α, Event.invoke 0 cb ∉ runScope [Stmt.mkGuard f, Stmt.moveG 0] := by
  refine ⟨rfl, ?_⟩
  intro cb h
  rw [show runScope [Stmt.mkGuard f, Stmt.moveG 0] = [Event.invoke 1 f] from rfl] at h
  simp at h

/-- C4: `dismiss` is idempotent and suppresses invocation: for every
guard `g` and every `n ≥ 1`, calling `dismiss` `n` times leaves `g` in
exactly the state produced by calling it once (disarmed), and the
destructor of the resulting guard invokes nothing. -/
theorem scope_guard_dismiss_idempotent (g : ScopeGuard α) (n : Nat) (h : 1 ≤ n) :
    ScopeGuard.dismiss^[n] g = g.dismiss
    ∧ (ScopeGuard.dismiss^[n] g).destruct = [] := by
  obtain ⟨m, rfl⟩ : ∃ m, n = m + 1 := ⟨n - 1, (Nat.succ_pred_eq_of_pos h).symm⟩
  have hiter : ScopeGuard.dismiss^[m + 1] g = g.dismiss := by
    rw [Function.iterate_succ_apply, dismiss_iterate]
  exact ⟨hiter, by rw [hiter]; rfl⟩

/-- Witness for C4 at `n = 3` on a concrete guard. -/
theorem scope_guard_dismiss_idempotent_witness :
    1 ≤ 3
    ∧ (ScopeGuard.dismiss^[3] (MakeScopeGuard 7) = (MakeScopeGuard 7).dismiss
       ∧ (ScopeGuard.dismiss^[3] (MakeScopeGuard 7)).destruct = []) :=
  ⟨by decide, scope_guard_dismiss_idempotent (MakeScopeGuard 7) 3 (by decide)⟩

/-- C5: move construction copies the source's callback and its
armed/disarmed state into the destination; in particular, in a scope
that creates a guard over `f`, dismisses it, and then move-constructs a
new guard from it, neither guard's end of life invokes anything: the
trace is empty. -/
theorem scope_guard_move_preserves_state (g : ScopeGuard α) (f : α) :
    ((ScopeGuard.moveConstruct g).1)._callback = g._callback
    ∧ ((ScopeGuard.moveConstruct g).1)._dismiss = g._dismiss
    ∧ runScope [Stmt.mkGuard f, Stmt.dismissG 0, Stmt.moveG 0] = [] :=
  ⟨rfl, rfl, rfl⟩

/-- C6: the factory is instantiable exactly for zero-argument callables
returning `void` (`returns_void_t` via `enable_if`); `MakeScopeGuard f`
yields an armed guard (`_dismiss = false`) owning `f` as its callback;
and creation has no side effect: a scope that creates a guard and
dismisses it before scope exit produces an empty trace, so the action
was not invoked during creation. -/
theorem make_scope_guard_spec (f : α) (c : CppCallable) :
    (scopeGuardInstantiable c = true ↔ (c.arity = 0 ∧ c.retIsVoid = true))
    ∧ (MakeScopeGuard f)._dismiss = false
    ∧ (MakeScopeGuard f)._callback = f
    ∧ runScope [Stmt.mkGuard f, Stmt.dismissG 0] = [] := by
  refine ⟨?_, rfl, rfl, rfl⟩
  simp [scopeGuardInstantiable, returns_void_t]

/-- C7: disarming is irreversible: if a guard is disarmed
(`_dismiss = true`), then after any sequence of subsequent operations
(further `dismiss` calls, being the source of a move) it is still
disarmed, and its destructor invokes nothing. -/
theorem scope_guard_disarm_irreversible (g : ScopeGuard α) (ops : List GuardOp)
    (h : g._dismiss = true) :
    (applyOps ops g)._dismiss = true ∧ (applyOps ops g).destruct = [] := by
  induction ops generalizing g with
  | nil =>
      refine ⟨h, ?_⟩
      simp [applyOps, ScopeGuard.destruct, h]
  | cons op ops ih =>
      have hop : (applyOp op g)._dismiss = true := by
        cases op <;> rfl
      simpa [applyOps, List.foldl_cons] using ih (applyOp op g) hop

/-- Witness for C7 on a concrete dismissed guard and a concrete
operation sequence (moved from, then dismissed again). -/
theorem scope_guard_disarm_irreversible_witness :
    ((MakeScopeGuard 5).dismiss)._dismiss = true
    ∧ ((applyOps [GuardOp.moveFromOp, GuardOp.dismissOp]
          ((MakeScopeGuard 5).dismiss))._dismiss = true
       ∧ (applyOps [GuardOp.moveFromOp, GuardOp.dismissOp]
            ((MakeScopeGuard 5).dismiss)).destruct = []) :=
  ⟨by decide,
    scope_guard_disarm_irreversible ((MakeScopeGuard 5).dismiss)
      [GuardOp.moveFromOp, GuardOp.dismissOp] (by decide)⟩

/-- C8: default construction, copy construction, copy assignment and
move assignment are all `= delete`d — a static, compile-time rejection —
and the non-deleted members are exactly the move constructor and the
factory constructor (the private constructor reachable only through the
`MakeScopeGuard` friend factory): those are the only ways to obtain a
guard. -/
theorem scope_guard_deleted_members (m : GuardMember) :
    memberDeleted GuardMember.defaultCtor = true
    ∧ memberDeleted GuardMember.copyCtor = true
    ∧ memberDeleted GuardMember.copyAssign = true
    ∧ memberDeleted GuardMember.moveAssign = true
    ∧ (memberDeleted m = false
        ↔ (m = GuardMember.moveCtor ∨ m = GuardMember.factoryCtor)) := by
  refine ⟨rfl, rfl, rfl, rfl, ?_⟩
  cases m <;> simp [memberDeleted]

/-- C9: two expansions of the scope-exit sugar in the same scope draw
two successive values from the monotonically increasing counter, so the
second value is strictly larger and the two generated anonymous names
are distinct (no collision); behaviourally, a scope with two sugar
guards over `f` (index 0, declared first) and `g` (index 1, declared
second) runs each action exactly once at scope end, in reverse order of
declaration: `g` first, then `f`. -/
theorem scope_exit_sugar_uniqueness (c : Nat) (f g : α) :
    (counterStep c).1 < (counterStep (counterStep c).2).1
    ∧ BRPC_ANONYMOUS_VARIABLE "SCOPE_EXIT" (counterStep c).1
        ≠ BRPC_ANONYMOUS_VARIABLE "SCOPE_EXIT" (counterStep (counterStep c).2).1
    ∧ runScope [Stmt.scopeExit f, Stmt.scopeExit g]
        = [Event.invoke 1 g, Event.invoke 0 f] := by
  refine ⟨?_, ?_, rfl⟩
  · simp [counterStep]
  · simp [counterStep, BRPC_ANONYMOUS_VARIABLE]

/-- C10: the lambda generated by the `BRPC_SCOPE_EXIT` sugar captures by
reference and is statically declared `noexcept`, hence can never
propagate an error out of the end-of-life invocation; it satisfies the
factory's instantiation constraint, but that constraint does not itself
require `noexcept`: there is a callable the factory accepts that is not
`noexcept` and may propagate an error. -/
theorem scope_exit_sugar_noexcept :
    scopeExitLambda.isNoexcept = true
    ∧ scopeExitCaptureMode = CaptureMode.byRef
    ∧ mayPropagateError scopeExitLambda = false
    ∧ scopeGuardInstantiable scopeExitLambda = true
    ∧ ∃ c : CppCallable,
        scopeGuardInstantiable c = true ∧ mayPropagateError c = true :=
  ⟨rfl, rfl, rfl, rfl, ⟨⟨0, true, false⟩, rfl, rfl⟩⟩

end butil

